import Mathlib

/-!
Formal model of the Omvyx voice dialogue pipeline (src/graph/state.py,
src/graph/workflow.py) as a shallow embedding in Lean.

The per-call state (`CallState`) mirrors `OmvyxState`; every graph node is a
function from `CallState` to `CallState` (or `Option CallState` where the
Python code can raise a `KeyError` on a dict index).  The external
collaborators declared in the spec (extraction service, intent classifier,
customer directory, availability service, knowledge lookup) are passed in as
a `Services` record of pure functions, matching their interface contracts.
Python dictionaries are modelled as association lists; Python truthiness of
an optional string (`None` and `""` are falsy) is `optTruthy`.
-/

set_option maxRecDepth 8000

namespace Omvyx

/-- Chat message with the LangChain roles used by the graph. -/
inductive Msg where
  | system (content : String)
  | human (content : String)
  | ai (content : String)
  deriving DecidableEq

/-- `BookingRequest.status` literals from src/graph/state.py. -/
inductive BookingStatus where
  | idle
  | checking
  | offered
  | confirmed
  | failed
  deriving DecidableEq

/-- Temporary holder for an in-progress appointment booking
(`BookingRequest` in src/graph/state.py). -/
structure BookingRequest where
  requested_date : Option String
  confirmed_slot : Option String
  status : BookingStatus
  deriving DecidableEq

/-- Unified client entity object (`ClientProfile` in src/graph/state.py).
`profile_data` is the Python dict modelled as an association list;
interaction-history entries are themselves dicts of strings. -/
structure ClientProfile where
  identity_key : Option String
  is_verified : Bool
  is_new_customer : Bool
  profile_data : List (String × String)
  interaction_history : List (List (String × String))
  deriving DecidableEq

/-- Graph state (`OmvyxState` in src/graph/state.py).  `intent` is one of
the string literals produced by the router. -/
structure CallState where
  call_id : String
  messages : List Msg
  client_profile : ClientProfile
  missing_required_fields : List String
  current_slot : String
  interrupted_by_faq : Bool
  booking : BookingRequest
  intent : String
  system_init_done : Bool
  deriving DecidableEq

/-- Record returned by the customer directory (`lookup_user` in
src/tools/crm.py): profile fields plus an optional interaction history
(keyed `interaction_history` in the Python dict). -/
structure CrmRecord where
  fields : List (String × String)
  interaction_history : Option (List (List (String × String)))
  deriving DecidableEq

/-- Result of `check_availability` in src/tools/calendar.py: the fields of
the returned dict (`available`, `alternatives` defaulting to `[]`,
optional `error`). -/
structure AvailResult where
  available : Bool
  alternatives : List String
  error : Option String
  deriving DecidableEq

/-- Arguments of a `book_slot` call (src/tools/calendar.py). -/
structure BookCall where
  slot : String
  user_dni : String
  deriving DecidableEq

/-- Arguments of a `create_user` call (src/tools/crm.py). -/
structure CreateCall where
  name : String
  dni : String
  email : String
  phone : String
  deriving DecidableEq

/-- The external collaborators of the pipeline, at the interfaces fixed in
the spec: extraction service, intent classifier, customer directory lookup,
availability service and knowledge lookup, all pure. -/
structure Services where
  extract : String → String → Option String
  classify : String → String
  lookup_user : String → Option CrmRecord
  check_availability : String → AvailResult
  search_faq : String → Option String

/-- Python `dict.get`: first binding of the key, if any. -/
def getField (d : List (String × String)) (k : String) : Option String :=
  match d with
  | [] => none
  | (k', v) :: rest => if k' == k then some v else getField rest k

/-- Python dict assignment `d[k] = v`: replace the first binding or append. -/
def setField (d : List (String × String)) (k v : String) : List (String × String) :=
  match d with
  | [] => [(k, v)]
  | (k', v') :: rest => if k' == k then (k, v) :: rest else (k', v') :: setField rest k v

/-- Python truthiness of an optional string: `None` and `""` are falsy. -/
def optTruthy : Option String → Bool
  | none => false
  | some s => !(s == "")

/-- `REQUIRED_FIELDS` from src/graph/state.py. -/
def REQUIRED_FIELDS : List String := ["dni", "name", "intent"]

/-- `FIELD_PROMPTS` from src/graph/workflow.py. -/
def FIELD_PROMPTS : List (String × String) :=
  [("dni", "Para poder buscarle en nuestro sistema, ¿me puede facilitar su DNI o documento de identidad?"),
   ("name", "Perfecto. ¿Me puede indicar su nombre completo?"),
   ("intent", "¿En qué puedo ayudarle hoy? Puedo agendar una cita, resolver dudas o consultar información.")]

/-- Content of `SYSTEM_PROMPT` in src/graph/workflow.py. -/
def SYSTEM_PROMPT_TEXT : String :=
  "Eres Omvyx, una recepcionista virtual profesional y amable.\nHablas en español de España de forma natural y cercana.\n\nREGLAS:\n- Sé concisa: las respuestas van por voz, así que máximo 2-3 frases.\n- Nunca inventes datos. Si no sabes algo, dilo.\n- Si estás recogiendo datos del usuario y te interrumpen con una pregunta,\n  responde la pregunta y VUELVE INMEDIATAMENTE a pedir el dato que faltaba.\n- Cuando ofrezcas citas alternativas, di las opciones de forma clara.\n- Si ya conoces al cliente (CRM), salúdale por su nombre y menciona su\n  historial si es relevante.\n"

/-- `_last_human_text`: text of the most recent `HumanMessage`. -/
def lastHumanAux : List Msg → String
  | [] => ""
  | Msg.human c :: _ => c
  | _ :: rest => lastHumanAux rest

/-- `_last_human_text` from src/graph/workflow.py (scan the reversed list). -/
def last_human_text (ms : List Msg) : String :=
  lastHumanAux ms.reverse

/-- Loop body of `_compute_missing_fields`: iterate the checklist; the
`intent` entry is skipped by both of the source's `continue` branches, other
entries are kept exactly when their profile value is falsy. -/
def missingLoop (pd : List (String × String)) (intent : String) : List String → List String
  | [] => []
  | field :: rest =>
    if field == "intent" then
      if intent == "booking" || intent == "faq" || intent == "end_call" then
        missingLoop pd intent rest
      else
        missingLoop pd intent rest
    else if optTruthy (getField pd field) then
      missingLoop pd intent rest
    else
      field :: missingLoop pd intent rest

/-- `_compute_missing_fields` from src/graph/workflow.py. -/
def compute_missing_fields (profile : ClientProfile) (intent : String) : List String :=
  missingLoop profile.profile_data intent REQUIRED_FIELDS

/-- `init_system` node: inject the system prompt exactly once. -/
def init_system (s : CallState) : CallState :=
  if s.system_init_done then s
  else { s with messages := s.messages ++ [Msg.system SYSTEM_PROMPT_TEXT],
                system_init_done := true }

/-- The `extractable_fields` list scanned by `universal_extract`. -/
def extractable_fields : List String := ["dni", "name", "email", "phone"]

/-- Field loop of `universal_extract`: skip fields already truthy, write any
truthy extracted value, set `identity_key` on the first DNI capture. -/
def extractLoop (svc : Services) (msg : String) (p : ClientProfile) (changed : Bool) :
    List String → ClientProfile × Bool
  | [] => (p, changed)
  | field :: rest =>
    if optTruthy (getField p.profile_data field) then
      extractLoop svc msg p changed rest
    else
      match svc.extract field msg with
      | some v =>
        if v == "" then
          extractLoop svc msg p changed rest
        else
          extractLoop svc msg
            { p with profile_data := setField p.profile_data field v,
                     identity_key :=
                       if field == "dni" && !optTruthy p.identity_key then some v
                       else p.identity_key }
            true rest
      | none => extractLoop svc msg p changed rest

/-- `universal_extract` node from src/graph/workflow.py. -/
def universal_extract (svc : Services) (s : CallState) : CallState :=
  let last_msg := last_human_text s.messages
  if last_msg == "" then s
  else
    let r := extractLoop svc last_msg s.client_profile false extractable_fields
    if r.2 then
      { s with client_profile := r.1,
               missing_required_fields := compute_missing_fields r.1 s.intent }
    else s

/-- Merge of the directory record into `profile_data` inside `crm_sync`:
only non-empty directory values overwrite (the `elif value:` guard). -/
def mergeFields (pd : List (String × String)) : List (String × String) → List (String × String)
  | [] => pd
  | (k, v) :: rest => mergeFields (if v == "" then pd else setField pd k v) rest

/-- `crm_sync` node from src/graph/workflow.py. -/
def crm_sync (svc : Services) (s : CallState) : CallState :=
  let profile := s.client_profile
  if profile.is_verified then s
  else
    let dniOpt := getField profile.profile_data "dni"
    if !optTruthy dniOpt then s
    else
      match svc.lookup_user (dniOpt.getD "") with
      | some rec0 =>
        let hydrated : ClientProfile :=
          { identity_key := some (dniOpt.getD ""),
            is_verified := true,
            is_new_customer := false,
            profile_data := mergeFields profile.profile_data rec0.fields,
            interaction_history :=
              rec0.interaction_history.getD profile.interaction_history }
        { s with client_profile := hydrated,
                 missing_required_fields := compute_missing_fields hydrated s.intent }
      | none =>
        { s with client_profile := { profile with is_new_customer := true } }

/-- The intent the router obtains from the classifier (falling back to the
stored intent on an empty utterance), before any override. -/
def routerRawIntent (svc : Services) (s : CallState) : String :=
  let last_msg := last_human_text s.messages
  if last_msg == "" then s.intent else svc.classify last_msg

/-- `checklist_router` node from src/graph/workflow.py. -/
def checklist_router (svc : Services) (s : CallState) : CallState :=
  let intent0 := routerRawIntent svc s
  let intent :=
    if s.booking.status == BookingStatus.offered && intent0 == "collect_data" then "booking"
    else intent0
  let interrupted :=
    if intent == "faq" && !(s.current_slot == "") then true else s.interrupted_by_faq
  { s with intent := intent,
           interrupted_by_faq := interrupted,
           missing_required_fields := compute_missing_fields s.client_profile intent }

/-- `greet` node from src/graph/workflow.py. -/
def greet (s : CallState) : CallState :=
  let p := s.client_profile
  let name := (getField p.profile_data "name").getD ""
  let text :=
    if p.is_verified && !(name == "") then
      match p.interaction_history.getLast? with
      | some last =>
        "¡Hola, " ++ name ++ "! Bienvenido/a de nuevo a Omvyx. Veo que su última visita fue el "
          ++ (getField last "date").getD "" ++ " por "
          ++ (getField last "summary").getD "una consulta" ++ ". ¿En qué puedo ayudarle hoy?"
      | none => "¡Hola, " ++ name ++ "! Bienvenido/a de nuevo a Omvyx. ¿En qué puedo ayudarle hoy?"
    else if !(name == "") then
      "¡Hola, " ++ name ++ "! Bienvenido/a a Omvyx. ¿En qué puedo ayudarle hoy?"
    else
      "¡Hola! Bienvenido/a a Omvyx. ¿En qué puedo ayudarle hoy?"
  { s with messages := s.messages ++ [Msg.ai text] }

/-- Fallback FAQ answer in `handle_faq`. -/
def FAQ_FALLBACK : String :=
  "Lo siento, no tengo información sobre eso. ¿Puedo ayudarle con algo más?"

/-- ASCII lowercasing of every character, modelling Python `str.lower()` on
the prompt strings (whose uppercase characters are all ASCII). -/
def pyLower (t : String) : String :=
  String.mk (t.data.map Char.toLower)

/-- The answer computed by `handle_faq` before resumption handling
(knowledge lookup with the falsy-answer fallback). -/
def faqAnswer (svc : Services) (q : String) : String :=
  match svc.search_faq q with
  | some a => if a == "" then FAQ_FALLBACK else a
  | none => FAQ_FALLBACK

/-- `handle_faq` node from src/graph/workflow.py.  `none` models the
`KeyError` a missing `FIELD_PROMPTS` key would raise. -/
def handle_faq (svc : Services) (s : CallState) : Option CallState :=
  let answer := faqAnswer svc (last_human_text s.messages)
  if s.interrupted_by_faq then
    match s.missing_required_fields with
    | next_field :: _ =>
      match getField FIELD_PROMPTS next_field with
      | some prompt =>
        some { s with
          messages := s.messages ++
            [Msg.ai (answer ++ " Pero volviendo a sus datos, " ++ pyLower prompt)],
          interrupted_by_faq := false }
      | none => none
    | [] =>
      some { s with messages := s.messages ++ [Msg.ai answer], interrupted_by_faq := false }
  else
    some { s with messages := s.messages ++ [Msg.ai answer], interrupted_by_faq := false }

/-- `collect_data` node from src/graph/workflow.py. -/
def collect_data (s : CallState) : Option CallState :=
  let p := s.client_profile
  match s.missing_required_fields with
  | [] =>
    let name := (getField p.profile_data "name").getD ""
    let text :=
      if p.is_verified then
        "He encontrado su expediente, " ++ name ++
          ". Ya tengo todos sus datos. ¿Le gustaría reservar una cita o necesita algo más?"
      else
        "Perfecto, " ++ name ++
          ". Ya tengo todos sus datos registrados. ¿Le gustaría reservar una cita?"
    some { s with messages := s.messages ++ [Msg.ai text], current_slot := "" }
  | next_field :: _ =>
    match getField FIELD_PROMPTS next_field with
    | some prompt =>
      some { s with messages := s.messages ++ [Msg.ai prompt], current_slot := next_field }
    | none => none

/-- Take exactly `n` characters satisfying `p`, returning them and the rest. -/
def takeCount (p : Char → Bool) : Nat → List Char → Option (List Char × List Char)
  | 0, cs => some ([], cs)
  | _ + 1, [] => none
  | n + 1, c :: cs =>
    if p c then (takeCount p n cs).map (fun x => (c :: x.1, x.2)) else none

/-- Greedily take leading whitespace characters. -/
def takeWsMany : List Char → List Char × List Char
  | [] => ([], [])
  | c :: cs =>
    if c.isWhitespace then
      let r := takeWsMany cs
      (c :: r.1, r.2)
    else ([], c :: cs)

/-- Match the date regex of src/graph/workflow.py
(four digits, dash, two digits, dash, two digits, one-or-more whitespace,
two digits, colon, two digits) at the start of the character list, returning
the matched characters. -/
def matchDateAt (cs : List Char) : Option (List Char) :=
  (takeCount Char.isDigit 4 cs).bind fun x1 =>
  match x1.2 with
  | '-' :: r2 =>
    (takeCount Char.isDigit 2 r2).bind fun x2 =>
    match x2.2 with
    | '-' :: r4 =>
      (takeCount Char.isDigit 2 r4).bind fun x3 =>
      match x3.2 with
      | c :: r6 =>
        if c.isWhitespace then
          let w := takeWsMany r6
          (takeCount Char.isDigit 2 w.2).bind fun x4 =>
          match x4.2 with
          | ':' :: r9 =>
            (takeCount Char.isDigit 2 r9).map fun x5 =>
              x1.1 ++ '-' :: x2.1 ++ '-' :: x3.1 ++ (c :: w.1) ++ x4.1 ++ ':' :: x5.1
          | _ => none
        else none
      | [] => none
    | _ => none
  | _ => none

/-- `re.search` over the date pattern: first match over all start positions. -/
def findDateAux : List Char → Option (List Char)
  | [] => none
  | cs@(_ :: rest) =>
    match matchDateAt cs with
    | some m => some m
    | none => findDateAux rest

/-- The `re.search` date extraction used by `manage_booking`. -/
def findDate (t : String) : Option String :=
  match findDateAux t.data with
  | some m => some (String.mk m)
  | none => none

/-- Confirmation utterance of the `checking`-available branch. -/
def bookingConfirmText (rd : String) : String :=
  "¡Listo! Su cita ha quedado confirmada para el " ++ rd ++ ". ¿Necesita algo más?"

/-- Utterance of the unavailable-with-alternatives branch. -/
def bookingAltText (rd : String) (alts : List String) : String :=
  "Lo siento, el " ++ rd ++ " no está disponible. Tengo disponibilidad el "
    ++ String.intercalate " o " alts ++ ". ¿Le viene bien alguna de estas opciones?"

/-- Utterance of the unavailable-with-no-alternatives branch. -/
def bookingNoAltText (err : String) : String :=
  "Lo siento, " ++ err ++ " ¿Desea intentar otra fecha?"

/-- Confirmation utterance of the `offered`-accepted branch. -/
def offeredConfirmText (slot : String) : String :=
  "¡Perfecto! Cita confirmada para el " ++ slot ++ ". ¿Algo más en lo que pueda ayudarle?"

/-- Utterance asking for a date when none was parsed. -/
def ASK_DATE_TEXT : String :=
  "¿Para qué fecha y hora le gustaría la cita? Por ejemplo: 2026-02-11 10:00"

/-- Status-machine part of `manage_booking`, reached with the (possibly
just-constructed) `booking` local variable of the source. -/
def manage_booking_core (svc : Services) (s : CallState) (booking : BookingRequest) :
    Option (CallState × Option BookCall) :=
  if booking.status == BookingStatus.checking then
    let rd := booking.requested_date.getD ""
    let result := svc.check_availability rd
    if result.available then
      some ({ s with
                messages := s.messages ++ [Msg.ai (bookingConfirmText rd)],
                booking := { requested_date := booking.requested_date,
                             confirmed_slot := booking.requested_date,
                             status := BookingStatus.confirmed } },
            some { slot := rd,
                   user_dni := (getField s.client_profile.profile_data "dni").getD "" })
    else
      let alts := result.alternatives
      let text :=
        if !alts.isEmpty then bookingAltText rd alts
        else bookingNoAltText (result.error.getD "No hay disponibilidad.")
      some ({ s with
                messages := s.messages ++ [Msg.ai text],
                booking := { requested_date := booking.requested_date,
                             confirmed_slot := none,
                             status := BookingStatus.offered } }, none)
  else if booking.status == BookingStatus.offered then
    match findDate (last_human_text s.messages) with
    | some slot =>
      let result := svc.check_availability slot
      if result.available then
        some ({ s with
                  messages := s.messages ++ [Msg.ai (offeredConfirmText slot)],
                  booking := { requested_date := some slot,
                               confirmed_slot := some slot,
                               status := BookingStatus.confirmed } },
              some { slot := slot,
                     user_dni := (getField s.client_profile.profile_data "dni").getD "" })
      else
        some ({ s with
                  messages := s.messages ++
                    [Msg.ai "Ese horario tampoco está disponible. ¿Quiere probar otra fecha?"],
                  booking := booking }, none)
    | none =>
      some ({ s with
                messages := s.messages ++
                  [Msg.ai "Entendido. ¿Para qué fecha y hora le gustaría la cita?"],
                booking := { requested_date := none, confirmed_slot := none,
                             status := BookingStatus.idle } }, none)
  else
    some ({ s with
              messages := s.messages ++
                [Msg.ai "¿Le gustaría reservar una cita? Dígame la fecha y hora deseada."],
              booking := { requested_date := none, confirmed_slot := none,
                           status := BookingStatus.idle } }, none)

/-- `manage_booking` node from src/graph/workflow.py.  Returns the updated
state together with the `book_slot` call, if one was made; `none` models the
`KeyError` of a missing `FIELD_PROMPTS` key. -/
def manage_booking (svc : Services) (s : CallState) : Option (CallState × Option BookCall) :=
  match s.missing_required_fields with
  | f :: _ =>
    match getField FIELD_PROMPTS f with
    | some prompt =>
      some ({ s with
                messages := s.messages ++
                  [Msg.ai ("Con gusto le ayudo a reservar una cita. Pero primero necesito algunos datos. "
                    ++ prompt)],
                intent := "collect_data",
                current_slot := f }, none)
    | none => none
  | [] =>
    let b0 := s.booking
    if !optTruthy b0.requested_date then
      match findDate (last_human_text s.messages) with
      | some d =>
        manage_booking_core svc s
          { requested_date := some d, confirmed_slot := none, status := BookingStatus.checking }
      | none =>
        some ({ s with messages := s.messages ++ [Msg.ai ASK_DATE_TEXT] }, none)
    else
      manage_booking_core svc s b0

/-- `end_call` node from src/graph/workflow.py. -/
def end_call (s : CallState) : CallState :=
  let name := (getField s.client_profile.profile_data "name").getD ""
  let text :=
    if !(name == "") then "Ha sido un placer atenderle, " ++ name ++ ". ¡Hasta pronto!"
    else "Gracias por llamar a Omvyx. ¡Hasta pronto!"
  { s with messages := s.messages ++ [Msg.ai text] }

/-- `save_crm` node from src/graph/workflow.py.  Returns the updated state
together with the `create_user` call, if one was made. -/
def save_crm (s : CallState) : CallState × Option CreateCall :=
  let p := s.client_profile
  let dniOpt := getField p.profile_data "dni"
  if !optTruthy dniOpt then (s, none)
  else if p.is_verified then (s, none)
  else if p.is_new_customer && optTruthy (getField p.profile_data "name") then
    ({ s with client_profile := { p with is_verified := true, is_new_customer := false } },
     some { name := (getField p.profile_data "name").getD "",
            dni := dniOpt.getD "",
            email := (getField p.profile_data "email").getD "",
            phone := (getField p.profile_data "phone").getD "" })
  else (s, none)

/-- `respond` node: terminal passthrough. -/
def respond (s : CallState) : CallState := s

/-- `route_after_checklist` from src/graph/workflow.py. -/
def route_after_checklist (s : CallState) : String :=
  if s.missing_required_fields ≠ [] ∧
      s.intent ∉ (["faq", "booking", "end_call", "greeting"] : List String) then
    "collect_data"
  else s.intent

/-- Result of one full turn: the committed state plus the external booking
and directory-create calls made during the turn. -/
structure TurnOut where
  state : CallState
  booked : Option BookCall
  created : Option CreateCall
  deriving DecidableEq

/-- Conditional-edge dispatch from `checklist_router` (the
`add_conditional_edges` mapping plus `route_after_booking`):  `unknown` maps
to `collect_data`; after `manage_booking`, an intent of `collect_data`
redirects into the `collect_data` node.  An unmapped route is `none`. -/
def dispatch (svc : Services) (route : String) (s : CallState) :
    Option (CallState × Option BookCall) :=
  match route with
  | "greeting" => some (greet s, none)
  | "faq" => (handle_faq svc s).map (fun s' => (s', none))
  | "collect_data" => (collect_data s).map (fun s' => (s', none))
  | "unknown" => (collect_data s).map (fun s' => (s', none))
  | "end_call" => some (end_call s, none)
  | "booking" =>
    match manage_booking svc s with
    | none => none
    | some (s1, bk) =>
      if s1.intent == "collect_data" then
        (collect_data s1).map (fun s2 => (s2, bk))
      else some (s1, bk)
  | _ => none

/-- One full turn of the compiled graph on one incoming utterance: the
human message is appended (the `messages` reducer on the invoke input), then
`init_system → universal_extract → crm_sync → checklist_router`, then the
routed action node(s), then `save_crm → respond`. -/
def runTurn (svc : Services) (msg : String) (s : CallState) : Option TurnOut :=
  let s0 := { s with messages := s.messages ++ [Msg.human msg] }
  let s1 := init_system s0
  let s2 := universal_extract svc s1
  let s3 := crm_sync svc s2
  let s4 := checklist_router svc s3
  match dispatch svc (route_after_checklist s4) s4 with
  | none => none
  | some (s5, bk) =>
    let r := save_crm s5
    some { state := respond r.1, booked := bk, created := r.2 }

/-- A sequence of turns (each with its own collaborator behaviours). -/
def runTurns : List (Services × String) → CallState → Option CallState
  | [], s => some s
  | (e, m) :: rest, s =>
    match runTurn e m s with
    | none => none
    | some t => runTurns rest t.state

/-- The fresh per-call state created by the store on first contact
(`OmvyxState` defaults in src/graph/state.py). -/
def newCallState : CallState :=
  { call_id := "",
    messages := [],
    client_profile :=
      { identity_key := none, is_verified := false, is_new_customer := true,
        profile_data := [], interaction_history := [] },
    missing_required_fields := REQUIRED_FIELDS,
    current_slot := "",
    interrupted_by_faq := false,
    booking := { requested_date := none, confirmed_slot := none, status := BookingStatus.idle },
    intent := "unknown",
    system_init_done := false }


/-! ### Derived definitions used by the verification -/

/-- The checklist as a pure function of the profile dict: the ordered
subsequence of `["dni", "name"]` whose value is empty. -/
def missingOfData (pd : List (String × String)) : List String :=
  (if optTruthy (getField pd "dni") then [] else ["dni"]) ++
  (if optTruthy (getField pd "name") then [] else ["name"])

/-- The state reaching the conditional edge: the four pipeline stages
applied to the stored state with the turn's utterance appended. -/
def preRoute (svc : Services) (msg : String) (s : CallState) : CallState :=
  checklist_router svc (crm_sync svc (universal_extract svc
    (init_system { s with messages := s.messages ++ [Msg.human msg] })))

/-- `confirmed_slot` is non-null only when `status = confirmed`. -/
def bookingInv (b : BookingRequest) : Bool :=
  match b.confirmed_slot with
  | none => true
  | some _ => b.status == BookingStatus.confirmed

/-- The checklist exactly as the spec words it: the ordered subsequence of
`REQUIRED_FIELDS` whose value in `profile_data` is empty (stated for
comparison with the source's `compute_missing_fields`). -/
def specMissingFields (p : ClientProfile) : List String :=
  REQUIRED_FIELDS.filter (fun f => !optTruthy (getField p.profile_data f))

/-- Boolean check that one character list starts with another. -/
def listStartsWith : List Char → List Char → Bool
  | [], _ => true
  | _ :: _, [] => false
  | a :: as, b :: bs => a == b && listStartsWith as bs

/-- Boolean check that string `t` ends with `suf`. -/
def strEndsWith (t suf : String) : Bool :=
  listStartsWith suf.data.reverse t.data.reverse

/-- Text of the last message in a state, empty if none. -/
def msgText : Msg → String
  | Msg.system c => c
  | Msg.human c => c
  | Msg.ai c => c

/-- Content of the last message of a state ("" when there is none). -/
def lastMsgText (s : CallState) : String :=
  match s.messages.getLast? with
  | some m => msgText m
  | none => ""

/-! ### Concrete fixtures used by witnesses and counterexamples -/

/-- Trivial collaborators: nothing extracted, classifier always
`collect_data`, empty directory, nothing available, no FAQ answer. -/
def svc0 : Services :=
  { extract := fun _ _ => none,
    classify := fun _ => "collect_data",
    lookup_user := fun _ => none,
    check_availability := fun _ => { available := false, alternatives := [], error := none },
    search_faq := fun _ => none }

/-- Collaborators whose classifier answers `greeting` (as the source's
keyword classifier does on "hola"). -/
def svcGreet : Services :=
  { svc0 with classify := fun _ => "greeting" }

/-- Collaborators whose classifier answers `faq` and whose knowledge lookup
returns the location answer of src/tools/faq.py. -/
def svcFaq : Services :=
  { svc0 with
    classify := fun _ => "faq",
    search_faq := fun _ => some "Estamos ubicados en Calle Gran Vía 28, Madrid. El horario de atención es de lunes a viernes, de 9:00 a 17:00." }

/-- Availability service answering unavailable with no alternatives and an
error, as `check_availability` does on a slot `strptime` rejects. -/
def svcNoAlt : Services :=
  { svc0 with
    check_availability := fun _ =>
      { available := false, alternatives := [],
        error := some "Invalid date format. Use YYYY-MM-DD HH:MM." } }

/-- Availability service answering available. -/
def svcAvail : Services :=
  { svc0 with
    check_availability := fun _ => { available := true, alternatives := [], error := none } }

/-- A profile that knows only the DNI. -/
def profDni : ClientProfile :=
  { identity_key := none, is_verified := false, is_new_customer := true,
    profile_data := [("dni", "12345678A")], interaction_history := [] }

/-- A profile with DNI and name known. -/
def profFull : ClientProfile :=
  { identity_key := none, is_verified := false, is_new_customer := true,
    profile_data := [("dni", "12345678A"), ("name", "María García")],
    interaction_history := [] }

/-- A profile with a name but no DNI. -/
def profNoDni : ClientProfile :=
  { identity_key := none, is_verified := false, is_new_customer := true,
    profile_data := [("name", "Juan Pérez")], interaction_history := [] }

/-- Fresh call state whose profile already holds the DNI. -/
def stDni : CallState :=
  { newCallState with client_profile := profDni }

/-- A state mid-slot-filling on "name", with the DNI known. -/
def sSlot : CallState :=
  { newCallState with
    current_slot := "name",
    client_profile := profDni,
    messages := [Msg.human "dónde están"] }

/-- A state with an offered booking and a final "hola" utterance. -/
def sOff : CallState :=
  { newCallState with
    messages := [Msg.human "hola"],
    booking := { requested_date := some "2026-02-09 10:00", confirmed_slot := none,
                 status := BookingStatus.offered } }

/-- A complete-checklist state with a booking being checked for an invalid
slot string. -/
def sChk : CallState :=
  { newCallState with
    client_profile := profFull,
    missing_required_fields := [],
    booking := { requested_date := some "2026-13-05 10:00", confirmed_slot := none,
                 status := BookingStatus.checking } }

/-- A complete-checklist state with a booking being checked for a valid
slot. -/
def sW5 : CallState :=
  { newCallState with
    client_profile := profFull,
    missing_required_fields := [],
    booking := { requested_date := some "2026-02-11 10:00", confirmed_slot := none,
                 status := BookingStatus.checking } }

/-- An unverified new-customer state with a name but no DNI. -/
def sNoDni : CallState :=
  { newCallState with client_profile := profNoDni }

/-- An unverified new-customer state with DNI and name known. -/
def sW8 : CallState :=
  { newCallState with client_profile := profFull }

/-- A state with intent already classified `collect_data` and the default
(non-empty) checklist. -/
def sC4 : CallState :=
  { newCallState with intent := "collect_data" }

/-! ### Basic lemmas about the dict model -/


theorem getField_setField (pd : List (String × String)) (k v f : String) :
    getField (setField pd k v) f = if k == f then some v else getField pd f := by
  induction pd with
  | nil =>
    simp only [setField, getField]
  | cons hd tl ih =>
    obtain ⟨k', v'⟩ := hd
    by_cases hk : k' = k
    · subst hk
      by_cases hf : k' = f
      · subst hf
        simp [setField, getField]
      · simp [setField, getField, hf, beq_iff_eq]
    · by_cases hf : k' = f
      · subst hf
        simp [setField, getField, beq_iff_eq, hk, Ne.symm hk]
      · simp [setField, getField, beq_iff_eq, hk, hf, ih]

theorem optTruthy_setField (pd : List (String × String)) (k v f : String)
    (hv : (v == "") = false) (h : optTruthy (getField pd f) = true) :
    optTruthy (getField (setField pd k v) f) = true := by
  rw [getField_setField]
  by_cases hk : k = f
  · simp [hk, optTruthy, hv]
  · simp [beq_iff_eq, hk, h]

/-! ### Characterization of the computed checklist -/

theorem compute_missing_eq (p : ClientProfile) (i : String) :
    compute_missing_fields p i = missingOfData p.profile_data := by
  cases h1 : optTruthy (getField p.profile_data "dni") <;>
    cases h2 : optTruthy (getField p.profile_data "name") <;>
      simp [compute_missing_fields, REQUIRED_FIELDS, missingLoop, missingOfData, h1, h2]

theorem mem_missingOfData (pd : List (String × String)) (f : String)
    (h : f ∈ missingOfData pd) : optTruthy (getField pd f) = false := by
  unfold missingOfData at h
  rcases List.mem_append.mp h with h' | h' <;> split at h' <;> simp_all

theorem truthy_not_mem_missingOfData (pd : List (String × String)) (f : String)
    (h : optTruthy (getField pd f) = true) : f ∉ missingOfData pd := by
  intro hm
  rw [mem_missingOfData pd f hm] at h
  exact Bool.false_ne_true h

theorem missingOfData_sublist (pd : List (String × String)) :
    List.Sublist (missingOfData pd) ["dni", "name"] := by
  unfold missingOfData
  cases optTruthy (getField pd "dni") <;> cases optTruthy (getField pd "name") <;> decide

theorem mem_missingOfData_cases (pd : List (String × String)) (f : String)
    (h : f ∈ missingOfData pd) : f = "dni" ∨ f = "name" := by
  have hs := (missingOfData_sublist pd).subset h
  simpa using hs

theorem mem_missingOfData_prompt (pd : List (String × String)) (f : String)
    (h : f ∈ missingOfData pd) : (getField FIELD_PROMPTS f).isSome = true := by
  rcases mem_missingOfData_cases pd f h with h' | h' <;> subst h' <;> decide

/-! ### Preservation of known fields by extraction and hydration -/

theorem extractLoop_getField (svc : Services) (msg : String) (l : List String) :
    ∀ (p : ClientProfile) (c : Bool) (f : String),
      optTruthy (getField p.profile_data f) = true →
      getField ((extractLoop svc msg p c l).1.profile_data) f = getField p.profile_data f := by
  induction l with
  | nil => intro p c f _; rfl
  | cons field rest ih =>
    intro p c f hf
    by_cases hknown : optTruthy (getField p.profile_data field) = true
    · simp only [extractLoop, hknown, if_true]
      exact ih p c f hf
    · simp only [extractLoop, hknown, if_false, Bool.false_eq_true]
      cases hx : svc.extract field msg with
      | none => exact ih p c f hf
      | some v =>
        by_cases hv : (v == "") = true
        · simp only [hv, if_true]
          exact ih p c f hf
        · simp only [hv, if_false, Bool.false_eq_true]
          have hne : (field == f) = false := by
            by_contra hc
            have : field = f := by
              have := Bool.of_not_eq_false hc
              exact beq_iff_eq.mp this
            subst this
            exact hknown hf
          have hset : getField (setField p.profile_data field v) f = getField p.profile_data f := by
            rw [getField_setField, hne]
            simp
          have hf' : optTruthy (getField (setField p.profile_data field v) f) = true := by
            rw [hset]; exact hf
          have := ih { p with
                        profile_data := setField p.profile_data field v,
                        identity_key :=
                          if field == "dni" && !optTruthy p.identity_key then some v
                          else p.identity_key } true f hf'
          simpa [hset] using this

theorem universal_extract_getField (svc : Services) (s : CallState) (f : String)
    (h : optTruthy (getField s.client_profile.profile_data f) = true) :
    getField ((universal_extract svc s).client_profile.profile_data) f =
      getField s.client_profile.profile_data f := by
  unfold universal_extract
  dsimp only
  split
  · rfl
  · split
    · exact extractLoop_getField svc _ extractable_fields s.client_profile false f h
    · rfl

theorem mergeFields_truthy (l : List (String × String)) :
    ∀ (pd : List (String × String)) (f : String),
      optTruthy (getField pd f) = true →
      optTruthy (getField (mergeFields pd l) f) = true := by
  induction l with
  | nil => intro pd f h; exact h
  | cons hd rest ih =>
    obtain ⟨k, v⟩ := hd
    intro pd f h
    simp only [mergeFields]
    by_cases hv : (v == "") = true
    · simp only [hv, if_true]
      exact ih pd f h
    · have hv' : (v == "") = false := by simpa using hv
      simp only [hv', if_false, Bool.false_eq_true]
      exact ih _ f (optTruthy_setField pd k v f hv' h)

theorem crm_sync_truthy (svc : Services) (s : CallState) (f : String)
    (h : optTruthy (getField s.client_profile.profile_data f) = true) :
    optTruthy (getField ((crm_sync svc s).client_profile.profile_data) f) = true := by
  unfold crm_sync
  dsimp only
  split
  · exact h
  · split
    · exact h
    · split
      · exact mergeFields_truthy _ s.client_profile.profile_data f h
      · exact h

/-! ### Frame lemmas for the graph nodes -/

theorem init_system_profile (s : CallState) :
    (init_system s).client_profile = s.client_profile := by
  unfold init_system; split <;> rfl

theorem init_system_booking (s : CallState) :
    (init_system s).booking = s.booking := by
  unfold init_system; split <;> rfl

theorem init_system_missing (s : CallState) :
    (init_system s).missing_required_fields = s.missing_required_fields := by
  unfold init_system; split <;> rfl

theorem universal_extract_booking (svc : Services) (s : CallState) :
    (universal_extract svc s).booking = s.booking := by
  unfold universal_extract; dsimp only; split
  · rfl
  · split <;> rfl

theorem crm_sync_booking (svc : Services) (s : CallState) :
    (crm_sync svc s).booking = s.booking := by
  unfold crm_sync; dsimp only; split
  · rfl
  · split
    · rfl
    · split <;> rfl

theorem checklist_router_profile (svc : Services) (s : CallState) :
    (checklist_router svc s).client_profile = s.client_profile := rfl

theorem checklist_router_booking (svc : Services) (s : CallState) :
    (checklist_router svc s).booking = s.booking := rfl

theorem checklist_router_missing (svc : Services) (s : CallState) :
    (checklist_router svc s).missing_required_fields =
      missingOfData s.client_profile.profile_data := by
  unfold checklist_router
  simp [compute_missing_eq]

theorem greet_frame (s : CallState) :
    (greet s).client_profile = s.client_profile ∧
    (greet s).missing_required_fields = s.missing_required_fields ∧
    (greet s).booking = s.booking :=
  ⟨rfl, rfl, rfl⟩

theorem end_call_frame (s : CallState) :
    (end_call s).client_profile = s.client_profile ∧
    (end_call s).missing_required_fields = s.missing_required_fields ∧
    (end_call s).booking = s.booking :=
  ⟨rfl, rfl, rfl⟩

theorem handle_faq_frame (svc : Services) (s s' : CallState)
    (h : handle_faq svc s = some s') :
    s'.client_profile = s.client_profile ∧
    s'.missing_required_fields = s.missing_required_fields ∧
    s'.booking = s.booking := by
  unfold handle_faq at h
  dsimp only at h
  split at h
  · split at h
    · split at h
      · cases h; exact ⟨rfl, rfl, rfl⟩
      · cases h
    · cases h; exact ⟨rfl, rfl, rfl⟩
  · cases h; exact ⟨rfl, rfl, rfl⟩

theorem collect_data_frame (s s' : CallState)
    (h : collect_data s = some s') :
    s'.client_profile = s.client_profile ∧
    s'.missing_required_fields = s.missing_required_fields ∧
    s'.booking = s.booking := by
  unfold collect_data at h
  dsimp only at h
  split at h
  · cases h; exact ⟨rfl, rfl, rfl⟩
  · split at h
    · cases h; exact ⟨rfl, rfl, rfl⟩
    · cases h

theorem manage_booking_core_frame (svc : Services) (s : CallState) (b : BookingRequest)
    (s' : CallState) (bk : Option BookCall)
    (h : manage_booking_core svc s b = some (s', bk)) :
    s'.client_profile = s.client_profile ∧
    s'.missing_required_fields = s.missing_required_fields := by
  unfold manage_booking_core at h
  dsimp only at h
  split at h
  · split at h
    · cases h; exact ⟨rfl, rfl⟩
    · cases h; exact ⟨rfl, rfl⟩
  · split at h
    · split at h
      · split at h
        · cases h; exact ⟨rfl, rfl⟩
        · cases h; exact ⟨rfl, rfl⟩
      · cases h; exact ⟨rfl, rfl⟩
    · cases h; exact ⟨rfl, rfl⟩

theorem manage_booking_frame (svc : Services) (s : CallState)
    (s' : CallState) (bk : Option BookCall)
    (h : manage_booking svc s = some (s', bk)) :
    s'.client_profile = s.client_profile ∧
    s'.missing_required_fields = s.missing_required_fields := by
  unfold manage_booking at h
  dsimp only at h
  split at h
  · split at h
    · cases h; exact ⟨rfl, rfl⟩
    · cases h
  · split at h
    · split at h
      · exact manage_booking_core_frame svc s _ s' bk h
      · cases h; exact ⟨rfl, rfl⟩
    · exact manage_booking_core_frame svc s _ s' bk h

theorem save_crm_frame (s : CallState) :
    (save_crm s).1.client_profile.profile_data = s.client_profile.profile_data ∧
    (save_crm s).1.missing_required_fields = s.missing_required_fields ∧
    (save_crm s).1.booking = s.booking := by
  unfold save_crm
  dsimp only
  split
  · exact ⟨rfl, rfl, rfl⟩
  · split
    · exact ⟨rfl, rfl, rfl⟩
    · split
      · exact ⟨rfl, rfl, rfl⟩
      · exact ⟨rfl, rfl, rfl⟩

theorem dispatch_frame (svc : Services) (r : String) (s : CallState)
    (s' : CallState) (bk : Option BookCall)
    (h : dispatch svc r s = some (s', bk)) :
    s'.client_profile = s.client_profile ∧
    s'.missing_required_fields = s.missing_required_fields := by
  unfold dispatch at h
  split at h
  · cases h
    exact ⟨(greet_frame s).1, (greet_frame s).2.1⟩
  · cases hf : handle_faq svc s with
    | none => rw [hf] at h; cases h
    | some s1 =>
      rw [hf] at h
      simp only [Option.map_some', Option.some.injEq, Prod.mk.injEq] at h
      obtain ⟨hs, hb⟩ := h
      subst hs
      exact ⟨(handle_faq_frame svc s s1 hf).1, (handle_faq_frame svc s s1 hf).2.1⟩
  · cases hc : collect_data s with
    | none => rw [hc] at h; cases h
    | some s1 =>
      rw [hc] at h
      simp only [Option.map_some', Option.some.injEq, Prod.mk.injEq] at h
      obtain ⟨hs, hb⟩ := h
      subst hs
      exact ⟨(collect_data_frame s s1 hc).1, (collect_data_frame s s1 hc).2.1⟩
  · cases hc : collect_data s with
    | none => rw [hc] at h; cases h
    | some s1 =>
      rw [hc] at h
      simp only [Option.map_some', Option.some.injEq, Prod.mk.injEq] at h
      obtain ⟨hs, hb⟩ := h
      subst hs
      exact ⟨(collect_data_frame s s1 hc).1, (collect_data_frame s s1 hc).2.1⟩
  · cases h
    exact ⟨(end_call_frame s).1, (end_call_frame s).2.1⟩
  · cases hm : manage_booking svc s with
    | none => rw [hm] at h; cases h
    | some p1 =>
      obtain ⟨s1, bk1⟩ := p1
      rw [hm] at h
      have hfr1 := manage_booking_frame svc s s1 bk1 hm
      dsimp only at h
      split at h
      · cases hc : collect_data s1 with
        | none => rw [hc] at h; cases h
        | some s2 =>
          rw [hc] at h
          simp only [Option.map_some', Option.some.injEq, Prod.mk.injEq] at h
          obtain ⟨hs, hb⟩ := h
          subst hs
          have hfr2 := collect_data_frame s1 s2 hc
          exact ⟨hfr2.1.trans hfr1.1, hfr2.2.1.trans hfr1.2⟩
      · cases h
        exact hfr1
  · cases h

/-! ### Turn-level invariants -/

theorem runTurn_eq (svc : Services) (msg : String) (s : CallState) :
    runTurn svc msg s =
      match dispatch svc (route_after_checklist (preRoute svc msg s)) (preRoute svc msg s) with
      | none => none
      | some (s5, bk) => some { state := respond (save_crm s5).1, booked := bk,
                                created := (save_crm s5).2 } := rfl

theorem preRoute_truthy (svc : Services) (msg : String) (s : CallState) (f : String)
    (h : optTruthy (getField s.client_profile.profile_data f) = true) :
    optTruthy (getField ((preRoute svc msg s).client_profile.profile_data) f) = true := by
  unfold preRoute
  rw [checklist_router_profile]
  apply crm_sync_truthy
  rw [universal_extract_getField]
  · rw [init_system_profile]
    exact h
  · rw [init_system_profile]
    exact h

theorem preRoute_missing (svc : Services) (msg : String) (s : CallState) :
    (preRoute svc msg s).missing_required_fields =
      missingOfData ((preRoute svc msg s).client_profile.profile_data) := by
  unfold preRoute
  rw [checklist_router_missing, checklist_router_profile]

theorem runTurn_missing (svc : Services) (msg : String) (s : CallState) (t : TurnOut)
    (h : runTurn svc msg s = some t) :
    t.state.missing_required_fields = missingOfData t.state.client_profile.profile_data := by
  rw [runTurn_eq] at h
  cases hd : dispatch svc (route_after_checklist (preRoute svc msg s)) (preRoute svc msg s) with
  | none => rw [hd] at h; cases h
  | some p =>
    obtain ⟨s5, bk⟩ := p
    rw [hd] at h
    cases h
    have hfr := dispatch_frame svc _ _ s5 bk hd
    have hsv := save_crm_frame s5
    show (save_crm s5).1.missing_required_fields =
      missingOfData (save_crm s5).1.client_profile.profile_data
    rw [hsv.1, hsv.2.1, hfr.2, hfr.1, preRoute_missing]

theorem runTurn_truthy (svc : Services) (msg : String) (s : CallState) (f : String) (t : TurnOut)
    (hf : optTruthy (getField s.client_profile.profile_data f) = true)
    (h : runTurn svc msg s = some t) :
    optTruthy (getField t.state.client_profile.profile_data f) = true := by
  rw [runTurn_eq] at h
  cases hd : dispatch svc (route_after_checklist (preRoute svc msg s)) (preRoute svc msg s) with
  | none => rw [hd] at h; cases h
  | some p =>
    obtain ⟨s5, bk⟩ := p
    rw [hd] at h
    cases h
    have hfr := dispatch_frame svc _ _ s5 bk hd
    have hsv := save_crm_frame s5
    show optTruthy (getField (save_crm s5).1.client_profile.profile_data f) = true
    rw [hsv.1, hfr.1]
    exact preRoute_truthy svc msg s f hf

/-! ### The BookingRequest invariant -/

theorem manage_booking_core_inv (svc : Services) (s : CallState) (b : BookingRequest)
    (s' : CallState) (bk : Option BookCall)
    (hb : bookingInv b = true)
    (h : manage_booking_core svc s b = some (s', bk)) :
    bookingInv s'.booking = true := by
  unfold manage_booking_core at h
  dsimp only at h
  split at h
  · split at h
    · cases h; cases b.requested_date <;> simp [bookingInv]
    · cases h; simp [bookingInv]
  · split at h
    · split at h
      · split at h
        · cases h; simp [bookingInv]
        · cases h; exact hb
      · cases h; simp [bookingInv]
    · cases h; simp [bookingInv]

theorem manage_booking_inv (svc : Services) (s : CallState)
    (s' : CallState) (bk : Option BookCall)
    (hb : bookingInv s.booking = true)
    (h : manage_booking svc s = some (s', bk)) :
    bookingInv s'.booking = true := by
  unfold manage_booking at h
  dsimp only at h
  split at h
  · split at h
    · cases h; exact hb
    · cases h
  · split at h
    · split at h
      · exact manage_booking_core_inv svc s _ s' bk (by simp [bookingInv]) h
      · cases h; exact hb
    · exact manage_booking_core_inv svc s _ s' bk hb h

theorem dispatch_bookingInv (svc : Services) (r : String) (s : CallState)
    (s' : CallState) (bk : Option BookCall)
    (hb : bookingInv s.booking = true)
    (h : dispatch svc r s = some (s', bk)) :
    bookingInv s'.booking = true := by
  unfold dispatch at h
  split at h
  · cases h; rw [(greet_frame s).2.2]; exact hb
  · cases hf : handle_faq svc s with
    | none => rw [hf] at h; cases h
    | some s1 =>
      rw [hf] at h
      simp only [Option.map_some', Option.some.injEq, Prod.mk.injEq] at h
      obtain ⟨hs, _⟩ := h
      subst hs
      rw [(handle_faq_frame svc s s1 hf).2.2]; exact hb
  · cases hc : collect_data s with
    | none => rw [hc] at h; cases h
    | some s1 =>
      rw [hc] at h
      simp only [Option.map_some', Option.some.injEq, Prod.mk.injEq] at h
      obtain ⟨hs, _⟩ := h
      subst hs
      rw [(collect_data_frame s s1 hc).2.2]; exact hb
  · cases hc : collect_data s with
    | none => rw [hc] at h; cases h
    | some s1 =>
      rw [hc] at h
      simp only [Option.map_some', Option.some.injEq, Prod.mk.injEq] at h
      obtain ⟨hs, _⟩ := h
      subst hs
      rw [(collect_data_frame s s1 hc).2.2]; exact hb
  · cases h; rw [(end_call_frame s).2.2]; exact hb
  · cases hm : manage_booking svc s with
    | none => rw [hm] at h; cases h
    | some p1 =>
      obtain ⟨s1, bk1⟩ := p1
      rw [hm] at h
      have hi1 := manage_booking_inv svc s s1 bk1 hb hm
      dsimp only at h
      split at h
      · cases hc : collect_data s1 with
        | none => rw [hc] at h; cases h
        | some s2 =>
          rw [hc] at h
          simp only [Option.map_some', Option.some.injEq, Prod.mk.injEq] at h
          obtain ⟨hs, _⟩ := h
          subst hs
          rw [(collect_data_frame s1 s2 hc).2.2]; exact hi1
      · cases h; exact hi1
  · cases h

theorem preRoute_booking (svc : Services) (msg : String) (s : CallState) :
    (preRoute svc msg s).booking = s.booking := by
  unfold preRoute
  rw [checklist_router_booking, crm_sync_booking, universal_extract_booking,
    init_system_booking]

theorem runTurn_bookingInv (svc : Services) (msg : String) (s : CallState) (t : TurnOut)
    (hb : bookingInv s.booking = true)
    (h : runTurn svc msg s = some t) :
    bookingInv t.state.booking = true := by
  rw [runTurn_eq] at h
  cases hd : dispatch svc (route_after_checklist (preRoute svc msg s)) (preRoute svc msg s) with
  | none => rw [hd] at h; cases h
  | some p =>
    obtain ⟨s5, bk⟩ := p
    rw [hd] at h
    cases h
    have hpre : bookingInv (preRoute svc msg s).booking = true := by
      rw [preRoute_booking]; exact hb
    have h5 := dispatch_bookingInv svc _ _ s5 bk hpre hd
    show bookingInv (save_crm s5).1.booking = true
    rw [(save_crm_frame s5).2.2]
    exact h5

/-! ### Sequence-level lemmas -/

theorem runTurns_truthy (ts : List (Services × String)) :
    ∀ (s s' : CallState) (f : String),
      optTruthy (getField s.client_profile.profile_data f) = true →
      runTurns ts s = some s' →
      optTruthy (getField s'.client_profile.profile_data f) = true := by
  induction ts with
  | nil => intro s s' f hf h; cases h; exact hf
  | cons hd rest ih =>
    obtain ⟨e, m⟩ := hd
    intro s s' f hf h
    unfold runTurns at h
    cases ht : runTurn e m s with
    | none => rw [ht] at h; cases h
    | some t =>
      rw [ht] at h
      exact ih t.state s' f (runTurn_truthy e m s f t hf ht) h

theorem runTurns_missing (ts : List (Services × String)) :
    ∀ (s s' : CallState),
      ts ≠ [] →
      runTurns ts s = some s' →
      s'.missing_required_fields = missingOfData s'.client_profile.profile_data := by
  induction ts with
  | nil => intro s s' hne _; exact absurd rfl hne
  | cons hd rest ih =>
    obtain ⟨e, m⟩ := hd
    intro s s' _ h
    unfold runTurns at h
    cases ht : runTurn e m s with
    | none => rw [ht] at h; cases h
    | some t =>
      rw [ht] at h
      cases rest with
      | nil =>
        unfold runTurns at h
        cases h
        exact runTurn_missing e m s t ht
      | cons a b =>
        exact ih t.state s' (by simp) h

theorem missingOfData_eq_filter (pd : List (String × String)) :
    missingOfData pd =
      (["dni", "name"] : List String).filter (fun f => !optTruthy (getField pd f)) := by
  cases h1 : optTruthy (getField pd "dni") <;>
    cases h2 : optTruthy (getField pd "name") <;>
      simp [missingOfData, List.filter, h1, h2]

/-! ### Claim C1 -/

/-- C1 counterexample: with DNI and name known (and, as always, no
`"intent"` key in `profile_data`), the code computes an empty checklist,
while the claimed ordered subsequence of `REQUIRED_FIELDS` with empty
values is `["intent"]`: a checklist field with an empty profile value
(`"intent"`) is NOT present in the list. -/
theorem c1_counterexample :
    compute_missing_fields profFull "collect_data" = [] ∧
    specMissingFields profFull = ["intent"] ∧
    optTruthy (getField profFull.profile_data "intent") = false ∧
    compute_missing_fields profFull "collect_data" ≠ specMissingFields profFull := by
  refine ⟨by decide, by decide, by decide, by decide⟩

/-- C1 (amended): `_compute_missing_fields` returns exactly the ordered
subsequence of `["dni", "name"]` (that is, `REQUIRED_FIELDS` without
`"intent"`, which is never asked) whose profile value is empty; it is a pure
function of the profile (independent of the intent argument), and at the end
of every turn `missing_required_fields` equals that function of the final
profile. -/
theorem c1_amended :
    (∀ (p : ClientProfile) (i j : String),
      compute_missing_fields p i =
        (["dni", "name"] : List String).filter
          (fun f => !optTruthy (getField p.profile_data f)) ∧
      compute_missing_fields p i = compute_missing_fields p j) ∧
    (∀ (svc : Services) (msg : String) (s : CallState),
      Option.all
        (fun t => t.state.missing_required_fields ==
          missingOfData t.state.client_profile.profile_data)
        (runTurn svc msg s) = true) := by
  constructor
  · intro p i j
    constructor
    · rw [compute_missing_eq, missingOfData_eq_filter]
    · rw [compute_missing_eq, compute_missing_eq]
  · intro svc msg s
    cases h : runTurn svc msg s with
    | none => rfl
    | some t =>
      have := runTurn_missing svc msg s t h
      simpa [Option.all] using this

/-! ### Claim C2 -/

/-- C2: checklist monotonicity.  Once a field is truthy in `profile_data`,
after any sequence of turns it is still truthy, and (after at least one
turn) it is not in `missing_required_fields`. -/
theorem c2_theorem (ts : List (Services × String)) (s : CallState) (f : String)
    (hf : optTruthy (getField s.client_profile.profile_data f) = true) :
    Option.all
      (fun s' => optTruthy (getField s'.client_profile.profile_data f) &&
        (ts.isEmpty || !(s'.missing_required_fields.contains f)))
      (runTurns ts s) = true := by
  cases hr : runTurns ts s with
  | none => rfl
  | some s' =>
    have ht := runTurns_truthy ts s s' f hf hr
    simp only [Option.all, ht, Bool.true_and]
    cases hts : ts.isEmpty with
    | true => rfl
    | false =>
      have hne : ts ≠ [] := by
        intro hcc
        subst hcc
        simp at hts
      have hm := runTurns_missing ts s s' hne hr
      have hnm : f ∉ s'.missing_required_fields := by
        rw [hm]
        exact truthy_not_mem_missingOfData _ f ht
      have hc : s'.missing_required_fields.contains f = false := by
        by_contra hcc
        exact hnm (List.mem_of_elem_eq_true (Bool.of_not_eq_false hcc))
      simp only [Bool.false_or, hc, Bool.not_false]

/-- C2 witness: a concrete run of one turn from a state that already knows
the DNI. -/
theorem c2_witness :
    optTruthy (getField stDni.client_profile.profile_data "dni") = true ∧
    Option.all
      (fun s' => optTruthy (getField s'.client_profile.profile_data "dni") &&
        (([((svc0 : Services), "Hola")] : List (Services × String)).isEmpty ||
          !(s'.missing_required_fields.contains "dni")))
      (runTurns [(svc0, "Hola")] stDni) = true :=
  ⟨by decide, c2_theorem [(svc0, "Hola")] stDni "dni" (by decide)⟩

/-! ### Claim C10 -/

theorem collect_data_isSome (s : CallState)
    (h : ∀ f ∈ s.missing_required_fields, (getField FIELD_PROMPTS f).isSome = true) :
    (collect_data s).isSome = true := by
  unfold collect_data
  dsimp only
  cases hm : s.missing_required_fields with
  | nil => rfl
  | cons f rest =>
    have hp := h f (by rw [hm]; exact List.mem_cons_self f rest)
    cases hgp : getField FIELD_PROMPTS f with
    | none => rw [hgp] at hp; cases hp
    | some p => simp [hgp]

theorem handle_faq_isSome (svc : Services) (s : CallState)
    (h : ∀ f ∈ s.missing_required_fields, (getField FIELD_PROMPTS f).isSome = true) :
    (handle_faq svc s).isSome = true := by
  unfold handle_faq
  dsimp only
  split
  · cases hm : s.missing_required_fields with
    | nil => rfl
    | cons f rest =>
      have hp := h f (by rw [hm]; exact List.mem_cons_self f rest)
      cases hgp : getField FIELD_PROMPTS f with
      | none => rw [hgp] at hp; cases hp
      | some p => simp [hgp]
  · rfl

theorem manage_booking_core_isSome (svc : Services) (s : CallState) (b : BookingRequest) :
    (manage_booking_core svc s b).isSome = true := by
  unfold manage_booking_core
  dsimp only
  split
  · split <;> rfl
  · split
    · split
      · split <;> rfl
      · rfl
    · rfl

theorem manage_booking_isSome (svc : Services) (s : CallState)
    (h : ∀ f ∈ s.missing_required_fields, (getField FIELD_PROMPTS f).isSome = true) :
    (manage_booking svc s).isSome = true := by
  unfold manage_booking
  dsimp only
  cases hm : s.missing_required_fields with
  | nil =>
    split
    · simp_all
    · split
      · split
        · exact manage_booking_core_isSome svc s _
        · rfl
      · exact manage_booking_core_isSome svc s _
  | cons f rest =>
    have hp := h f (by rw [hm]; exact List.mem_cons_self f rest)
    cases hgp : getField FIELD_PROMPTS f with
    | none => rw [hgp] at hp; cases hp
    | some p => simp [hgp]

/-- C10: the computed checklist is always an ordered sublist of
`["dni", "name"]` — `"intent"` is never included — every element has a
prompt in `FIELD_PROMPTS`, and after the router the three action nodes that
index `FIELD_PROMPTS` with the head of the list never fail. -/
theorem c10_theorem :
    (∀ (p : ClientProfile) (i : String),
      List.Sublist (compute_missing_fields p i) ["dni", "name"] ∧
      "intent" ∉ compute_missing_fields p i ∧
      ∀ f ∈ compute_missing_fields p i, (getField FIELD_PROMPTS f).isSome = true) ∧
    (∀ (svc : Services) (s : CallState),
      (collect_data (checklist_router svc s)).isSome = true ∧
      (handle_faq svc (checklist_router svc s)).isSome = true ∧
      (manage_booking svc (checklist_router svc s)).isSome = true) := by
  constructor
  · intro p i
    rw [compute_missing_eq]
    refine ⟨missingOfData_sublist _, ?_, ?_⟩
    · intro hmem
      rcases mem_missingOfData_cases _ _ hmem with h | h <;> simp at h
    · intro f hf
      exact mem_missingOfData_prompt _ f hf
  · intro svc s
    have h : ∀ f ∈ (checklist_router svc s).missing_required_fields,
        (getField FIELD_PROMPTS f).isSome = true := by
      intro f hf
      rw [checklist_router_missing] at hf
      exact mem_missingOfData_prompt _ f hf
    exact ⟨collect_data_isSome _ h, handle_faq_isSome svc _ h, manage_booking_isSome svc _ h⟩

/-! ### Claim C3 -/

/-- C3 counterexample: with `booking.status = offered` and a classifier
label of `greeting` (as the source classifier produces on "hola"), the
router leaves the intent at `greeting`: an offered booking does NOT force
the intent to `booking` for every classifier label. -/
theorem c3_counterexample :
    sOff.booking.status = BookingStatus.offered ∧
    routerRawIntent svcGreet sOff = "greeting" ∧
    (checklist_router svcGreet sOff).intent = "greeting" := by
  refine ⟨rfl, by decide, by decide⟩

/-- C3 (amended): with `booking.status = offered` the router forces the
intent to `booking` exactly when the classifier produced `collect_data`;
every other label passes through unchanged. -/
theorem c3_amended (svc : Services) (s : CallState)
    (h : s.booking.status = BookingStatus.offered) :
    (checklist_router svc s).intent =
      (if routerRawIntent svc s == "collect_data" then "booking"
       else routerRawIntent svc s) := by
  unfold checklist_router
  dsimp only
  rw [h]
  simp

/-- C3 witness: the amended rule at a concrete offered state where the
classifier answers `collect_data`. -/
theorem c3_witness :
    sOff.booking.status = BookingStatus.offered ∧
    (checklist_router svc0 sOff).intent =
      (if routerRawIntent svc0 sOff == "collect_data" then "booking"
       else routerRawIntent svc0 sOff) :=
  ⟨rfl, c3_amended svc0 sOff rfl⟩

/-! ### Claim C4 -/

/-- C4: if `missing_required_fields` is non-empty and the intent the router
dispatches on is none of `faq`, `booking`, `end_call`, `greeting`, the
conditional edge routes to `collect_data`. -/
theorem c4_theorem (s : CallState)
    (h1 : s.missing_required_fields ≠ [])
    (h2 : s.intent ∉ (["faq", "booking", "end_call", "greeting"] : List String)) :
    route_after_checklist s = "collect_data" := by
  unfold route_after_checklist
  rw [if_pos ⟨h1, h2⟩]

/-- C4 witness: the dispatch rule at a concrete state with the default
checklist outstanding and intent `collect_data`. -/
theorem c4_witness :
    sC4.missing_required_fields ≠ [] ∧
    sC4.intent ∉ (["faq", "booking", "end_call", "greeting"] : List String) ∧
    route_after_checklist sC4 = "collect_data" :=
  ⟨by decide, by decide, c4_theorem sC4 (by decide) (by decide)⟩

/-! ### Claim C6 -/

/-- C6: `confirmed_slot` is non-null only when `status = confirmed`: the
invariant holds of the fresh call state and is preserved by every turn (in
particular every `BookingRequest` any node constructs satisfies it). -/
theorem c6_theorem :
    bookingInv newCallState.booking = true ∧
    (∀ (svc : Services) (msg : String) (s : CallState),
      bookingInv s.booking = true →
      Option.all (fun t => bookingInv t.state.booking) (runTurn svc msg s) = true) := by
  refine ⟨rfl, ?_⟩
  intro svc msg s hb
  cases h : runTurn svc msg s with
  | none => rfl
  | some t => simpa [Option.all] using runTurn_bookingInv svc msg s t hb h

/-- C6 witness: the preservation part applied to a concrete turn. -/
theorem c6_witness :
    bookingInv stDni.booking = true ∧
    Option.all (fun t => bookingInv t.state.booking) (runTurn svc0 "Hola" stDni) = true :=
  ⟨by decide, c6_theorem.2 svc0 "Hola" stDni (by decide)⟩

/-! ### Claim C5 -/

/-- C5 counterexample: with a complete checklist and `status = checking`,
an availability answer of unavailable-with-no-alternatives (as
`check_availability` returns on a slot `strptime` rejects) leaves the
booking in `offered` — not in the claimed reset-`checking` semantics —
while the service's error is emitted. -/
theorem c5_counterexample :
    sChk.missing_required_fields = [] ∧
    sChk.booking.status = BookingStatus.checking ∧
    (svcNoAlt.check_availability "2026-13-05 10:00").available = false ∧
    (svcNoAlt.check_availability "2026-13-05 10:00").alternatives = [] ∧
    Option.map (fun r => (r.1.booking, lastMsgText r.1)) (manage_booking svcNoAlt sChk) =
      some ({ requested_date := some "2026-13-05 10:00", confirmed_slot := none,
              status := BookingStatus.offered },
            bookingNoAltText "Invalid date format. Use YYYY-MM-DD HH:MM.") := by
  refine ⟨rfl, rfl, rfl, rfl, by decide⟩

/-- C5 (amended): with a complete checklist and `status = checking`, an
available slot is committed (`confirmed_slot = requested_date`,
`status = confirmed`, confirmation emitted, `book_slot` called); an
unavailable slot with alternatives becomes `offered` with the alternatives
emitted; an unavailable slot with no alternatives emits the service's error
and also becomes `offered` with no confirmed slot (a dateless reply on the
next turn then resets it to `idle`). -/
theorem c5_amended (svc : Services) (s : CallState) (rd : String)
    (hm : s.missing_required_fields = [])
    (hst : s.booking.status = BookingStatus.checking)
    (hrd : s.booking.requested_date = some rd)
    (hne : rd ≠ "") :
    ((svc.check_availability rd).available = true →
      manage_booking svc s = some
        ({ s with
            messages := s.messages ++ [Msg.ai (bookingConfirmText rd)],
            booking := { requested_date := some rd, confirmed_slot := some rd,
                         status := BookingStatus.confirmed } },
         some { slot := rd,
                user_dni := (getField s.client_profile.profile_data "dni").getD "" })) ∧
    ((svc.check_availability rd).available = false →
      (svc.check_availability rd).alternatives ≠ [] →
      manage_booking svc s = some
        ({ s with
            messages := s.messages ++
              [Msg.ai (bookingAltText rd (svc.check_availability rd).alternatives)],
            booking := { requested_date := some rd, confirmed_slot := none,
                         status := BookingStatus.offered } }, none)) ∧
    ((svc.check_availability rd).available = false →
      (svc.check_availability rd).alternatives = [] →
      manage_booking svc s = some
        ({ s with
            messages := s.messages ++
              [Msg.ai (bookingNoAltText
                ((svc.check_availability rd).error.getD "No hay disponibilidad."))],
            booking := { requested_date := some rd, confirmed_slot := none,
                         status := BookingStatus.offered } }, none)) := by
  have hopt : optTruthy s.booking.requested_date = true := by
    rw [hrd]
    simp [optTruthy, hne]
  have hmb : manage_booking svc s = manage_booking_core svc s s.booking := by
    unfold manage_booking
    rw [hm]
    dsimp only
    simp [hopt]
  refine ⟨?_, ?_, ?_⟩
  · intro hav
    rw [hmb]
    unfold manage_booking_core
    dsimp only
    simp only [hst, hrd, beq_self_eq_true, if_true, Option.getD_some, hav]
  · intro hav halt
    have hie : (svc.check_availability rd).alternatives.isEmpty = false := by
      cases hca : (svc.check_availability rd).alternatives with
      | nil => exact absurd hca halt
      | cons a as => rfl
    rw [hmb]
    unfold manage_booking_core
    dsimp only
    simp only [hst, hrd, beq_self_eq_true, if_true, Option.getD_some, hav,
      Bool.false_eq_true, if_false, hie, Bool.not_false]
  · intro hav halt
    have hie : (svc.check_availability rd).alternatives.isEmpty = true := by
      rw [halt]
      rfl
    rw [hmb]
    unfold manage_booking_core
    dsimp only
    simp only [hst, hrd, beq_self_eq_true, if_true, Option.getD_some, hav,
      Bool.false_eq_true, if_false, hie, Bool.not_true]

/-- C5 witness: the committed transition at a concrete available slot. -/
theorem c5_witness :
    sW5.missing_required_fields = [] ∧
    sW5.booking.status = BookingStatus.checking ∧
    sW5.booking.requested_date = some "2026-02-11 10:00" ∧
    manage_booking svcAvail sW5 = some
      ({ sW5 with
          messages := sW5.messages ++ [Msg.ai (bookingConfirmText "2026-02-11 10:00")],
          booking := { requested_date := some "2026-02-11 10:00",
                       confirmed_slot := some "2026-02-11 10:00",
                       status := BookingStatus.confirmed } },
       some { slot := "2026-02-11 10:00",
              user_dni := (getField sW5.client_profile.profile_data "dni").getD "" }) :=
  ⟨rfl, rfl, rfl,
    (c5_amended svcAvail sW5 "2026-02-11 10:00" rfl rfl rfl (by decide)).1 rfl⟩

/-! ### Claim C8 -/

/-- C8 counterexample: an unverified new customer with a non-empty name but
no DNI: the save stage is a no-op (no directory create, flags unchanged),
contradicting the claim that name alone triggers the create. -/
theorem c8_counterexample :
    sNoDni.client_profile.is_verified = false ∧
    sNoDni.client_profile.is_new_customer = true ∧
    optTruthy (getField sNoDni.client_profile.profile_data "name") = true ∧
    save_crm sNoDni = (sNoDni, none) := by
  refine ⟨rfl, rfl, by decide, by decide⟩

/-- C8 (amended): in an unverified state the save stage creates a directory
record from the current profile data and marks the profile verified and
not-new exactly when the DNI is non-empty AND the customer is new AND the
name is non-empty; in every other unverified state it is a no-op. -/
theorem c8_amended (s : CallState)
    (hv : s.client_profile.is_verified = false) :
    ((optTruthy (getField s.client_profile.profile_data "dni") = true →
      s.client_profile.is_new_customer = true →
      optTruthy (getField s.client_profile.profile_data "name") = true →
      save_crm s =
        ({ s with client_profile :=
            { s.client_profile with is_verified := true, is_new_customer := false } },
         some { name := (getField s.client_profile.profile_data "name").getD "",
                dni := (getField s.client_profile.profile_data "dni").getD "",
                email := (getField s.client_profile.profile_data "email").getD "",
                phone := (getField s.client_profile.profile_data "phone").getD "" })) ∧
     ((optTruthy (getField s.client_profile.profile_data "dni") &&
        (s.client_profile.is_new_customer &&
          optTruthy (getField s.client_profile.profile_data "name"))) = false →
      save_crm s = (s, none))) := by
  constructor
  · intro hd hnew hname
    unfold save_crm
    dsimp only
    simp [hd, hv, hnew, hname]
  · intro hfalse
    unfold save_crm
    dsimp only
    cases hd : optTruthy (getField s.client_profile.profile_data "dni") with
    | false => simp [hd]
    | true =>
      rw [hd] at hfalse
      simp only [Bool.true_and] at hfalse
      simp [hd, hv, hfalse]

/-- C8 witness: the create at a concrete unverified, new, DNI-and-name
state. -/
theorem c8_witness :
    sW8.client_profile.is_verified = false ∧
    optTruthy (getField sW8.client_profile.profile_data "dni") = true ∧
    sW8.client_profile.is_new_customer = true ∧
    optTruthy (getField sW8.client_profile.profile_data "name") = true ∧
    save_crm sW8 =
      ({ sW8 with client_profile :=
          { sW8.client_profile with is_verified := true, is_new_customer := false } },
       some { name := (getField sW8.client_profile.profile_data "name").getD "",
              dni := (getField sW8.client_profile.profile_data "dni").getD "",
              email := (getField sW8.client_profile.profile_data "email").getD "",
              phone := (getField sW8.client_profile.profile_data "phone").getD "" }) :=
  ⟨rfl, by decide, rfl, by decide,
    (c8_amended sW8 rfl).1 (by decide) rfl (by decide)⟩

/-! ### Claim C7 -/

/-- C7 counterexample: in the concrete digression (slot "name", FAQ
utterance), the emitted turn output ends with the LOWERCASED prompt for
"name", not with the exact `FIELD_PROMPTS` entry — the appended resumption
text is `" Pero volviendo a sus datos, "` plus `prompt.lower()`. -/
theorem c7_counterexample :
    sSlot.current_slot = "name" ∧
    Option.map
      (fun s' =>
        (strEndsWith (lastMsgText s') ((getField FIELD_PROMPTS "name").getD ""),
         strEndsWith (lastMsgText s') (pyLower ((getField FIELD_PROMPTS "name").getD "")),
         s'.interrupted_by_faq))
      (handle_faq svcFaq (checklist_router svcFaq sSlot)) =
      some (false, true, false) := by
  refine ⟨rfl, by decide⟩

/-- C7 (amended): with a non-empty `current_slot`, a non-empty utterance
classified `faq`, and a non-empty recomputed checklist, the router routes
to the FAQ node, which emits exactly the FAQ answer (or fallback) followed
by `" Pero volviendo a sus datos, "` and the LOWERCASED prompt for the
first missing field, and clears `interrupted_by_faq`. -/
theorem c7_amended (svc : Services) (s : CallState)
    (hslot : s.current_slot ≠ "")
    (hmsg : last_human_text s.messages ≠ "")
    (hcl : svc.classify (last_human_text s.messages) = "faq")
    (hmiss : missingOfData s.client_profile.profile_data ≠ []) :
    route_after_checklist (checklist_router svc s) = "faq" ∧
    ∃ (f : String) (rest : List String) (p : String) (s' : CallState),
      missingOfData s.client_profile.profile_data = f :: rest ∧
      getField FIELD_PROMPTS f = some p ∧
      handle_faq svc (checklist_router svc s) = some s' ∧
      s'.interrupted_by_faq = false ∧
      s'.messages = s.messages ++
        [Msg.ai (faqAnswer svc (last_human_text s.messages) ++
          " Pero volviendo a sus datos, " ++ pyLower p)] := by
  have hlm : (last_human_text s.messages == "") = false := beq_eq_false_iff_ne.mpr hmsg
  have hraw : routerRawIntent svc s = "faq" := by
    unfold routerRawIntent
    dsimp only
    simp [hlm, hcl]
  have hint : (checklist_router svc s).intent = "faq" := by
    unfold checklist_router
    dsimp only
    rw [hraw]
    simp
  have hcs : (s.current_slot == "") = false := beq_eq_false_iff_ne.mpr hslot
  have hflag : (checklist_router svc s).interrupted_by_faq = true := by
    unfold checklist_router
    dsimp only
    rw [hraw]
    simp [hcs]
  have hmiss4 : (checklist_router svc s).missing_required_fields =
      missingOfData s.client_profile.profile_data := checklist_router_missing svc s
  have hroute : route_after_checklist (checklist_router svc s) = "faq" := by
    unfold route_after_checklist
    have hnc : ¬((checklist_router svc s).missing_required_fields ≠ [] ∧
        (checklist_router svc s).intent ∉
          (["faq", "booking", "end_call", "greeting"] : List String)) := by
      intro hc
      exact hc.2 (by rw [hint]; simp)
    rw [if_neg hnc]
    exact hint
  obtain ⟨f, rest, hcons⟩ :
      ∃ f rest, missingOfData s.client_profile.profile_data = f :: rest := by
    cases hm : missingOfData s.client_profile.profile_data with
    | nil => exact absurd hm hmiss
    | cons a b => exact ⟨a, b, rfl⟩
  have hfmem : f ∈ missingOfData s.client_profile.profile_data := by
    rw [hcons]
    exact List.mem_cons_self f rest
  obtain ⟨p, hp⟩ := Option.isSome_iff_exists.mp (mem_missingOfData_prompt _ f hfmem)
  have hfaq : handle_faq svc (checklist_router svc s) = some
      { checklist_router svc s with
          messages := (checklist_router svc s).messages ++
            [Msg.ai (faqAnswer svc (last_human_text (checklist_router svc s).messages) ++
              " Pero volviendo a sus datos, " ++ pyLower p)],
          interrupted_by_faq := false } := by
    unfold handle_faq
    dsimp only
    rw [hflag, hmiss4, hcons]
    simp [hp]
  exact ⟨hroute, f, rest, p, _, hcons, hp, hfaq, rfl, rfl⟩

/-- C7 witness: the amended behaviour at the concrete digression state. -/
theorem c7_witness :
    sSlot.current_slot ≠ "" ∧
    (route_after_checklist (checklist_router svcFaq sSlot) = "faq" ∧
     ∃ (f : String) (rest : List String) (p : String) (s' : CallState),
       missingOfData sSlot.client_profile.profile_data = f :: rest ∧
       getField FIELD_PROMPTS f = some p ∧
       handle_faq svcFaq (checklist_router svcFaq sSlot) = some s' ∧
       s'.interrupted_by_faq = false ∧
       s'.messages = sSlot.messages ++
         [Msg.ai (faqAnswer svcFaq (last_human_text sSlot.messages) ++
           " Pero volviendo a sus datos, " ++ pyLower p)]) :=
  ⟨by decide, c7_amended svcFaq sSlot (by decide) (by decide) rfl (by decide)⟩

/-- C10 witness: the prompt lookup for the head of the fresh state's
computed checklist. -/
theorem c10_witness :
    "dni" ∈ compute_missing_fields newCallState.client_profile "unknown" ∧
    (getField FIELD_PROMPTS "dni").isSome = true :=
  ⟨by decide, (c10_theorem.1 newCallState.client_profile "unknown").2.2 "dni" (by decide)⟩

end Omvyx
